import Mathlib

/-!
Shallow embedding of `src/jira_zulip_bridge/main.py` (the jira→zulip bridge
bot).  The bot's mutable state (`self.prior_event_ids`, `self.last_new_ticket`)
is threaded explicitly; external collaborators (the zulip client, the two jira
HTTP endpoints, the `jira` python library used by `maybe_set_in_progress`, and
`datetime.strptime`) are modelled as an environment of functions whose results
(including the possibility of a raised exception, `Except.error`) are inputs to
the model.  A raised exception carries the state at the moment of the raise,
because the python mutations already performed (in-place `set.add`, attribute
assignment) persist across the raise.

Timestamps are modelled as integer seconds: `datetime.strptime` becomes
`Env.strptime : String → Option Int` (`none` = `ValueError` raised), and
`(now - when).total_seconds()` becomes integer subtraction — `total_seconds`
is the full elapsed duration of the difference.
-/

namespace JiraZulipBridge

/-- Constant `JIRA_API_LOOKBACK_MINUTES = 1000` (main.py line 26). -/
def JIRA_API_LOOKBACK_MINUTES : Int := 1000

/-- Constant `CHANGE_LOOKBACK_SECONDS = JIRA_API_LOOKBACK_MINUTES * 60` (line 29). -/
def CHANGE_LOOKBACK_SECONDS : Int := JIRA_API_LOOKBACK_MINUTES * 60

/-- Constant `DESCRIPTION_LIMIT = 10000` (line 24). -/
def DESCRIPTION_LIMIT : Nat := 10000

/-- Constant `CHANGE_IGNORED_FIELDS = {'WorklogId', 'timespent', 'RemoteIssueLink',
'timeestimate'}` (lines 27-28).  A python set used only for membership tests,
so a list with `∈` is an adequate model. -/
def CHANGE_IGNORED_FIELDS : List String :=
  ["WorklogId", "timespent", "RemoteIssueLink", "timeestimate"]

/-- One entry of `change['items']` (a changelog item from the jira payload):
`item.get('field')`, `item.get('fromString')`, `item.get('toString')`.  The
source reads these with `.get`, so absent keys are `None`; we model the field
name as always present (the jira API provides it and the code compares it to
string constants) and the two value strings as `Option`. -/
structure ChangeItem where
  field : String
  fromString : Option String
  toString : Option String
  deriving DecidableEq, Repr

/-- One entry of `issue['changelog']['histories']`: id, created timestamp,
author displayName, items. `int(change['id'])` is modelled as the id already
being a `Nat`. -/
structure History where
  id : Nat
  created : String
  author : String
  items : List ChangeItem
  deriving DecidableEq, Repr

/-- One entry of the per-issue comments reply: id, author displayName, body,
created and updated timestamps. -/
structure CommentE where
  id : Nat
  author : String
  body : String
  created : String
  updated : String
  deriving DecidableEq, Repr

/-- Structure `issue['fields']`: summary, creator displayName, optional description
(`fields.get('description')` — `none` models an absent or null value), and
the assignee displayName guarded by `'assignee' in fields` (`none` models the
key being absent). -/
structure Fields where
  summary : String
  creator : String
  description : Option String
  assignee : Option String
  deriving DecidableEq, Repr

/-- One element of `events['issues']`: id, key, fields, and
`issue['changelog']['histories']`. -/
structure Issue where
  id : Nat
  key : String
  fields : Fields
  histories : List History
  deriving DecidableEq, Repr

/-- The JSON document returned by a jira HTTP request, as far as the code
reads it: `events['issues']` and `issue_comments['comments']`.  A key that the
document lacks is `none`; subscripting a `none` field models a raised
`KeyError`. -/
structure JiraReply where
  issues : Option (List Issue)
  comments : Option (List CommentE)
  deriving DecidableEq, Repr

/-- The value returned by `self.client.send_message(request)` when the call
returns instead of raising.  The code never inspects this value; `success` and
`duplicateOfPriorState` record what the zulip server reported (needed only to
*state* spec claims about dispatch outcomes). -/
structure SendResult where
  success : Bool
  duplicateOfPriorState : Bool
  deriving DecidableEq, Repr

/-- State of the remote jira issue consulted by `maybe_set_in_progress`:
`issue.fields.assignee` (None or the assignee's key) and
`issue.fields.status.name`. -/
structure RemoteIssue where
  assignee : Option String
  statusName : String
  deriving DecidableEq, Repr

/-- One entry of `self.jira.transitions(jira_id)`: its `'name'` and `'id'`. -/
structure TransitionEntry where
  name : String
  id : Nat
  deriving DecidableEq, Repr

/-- Outcomes of the external collaborator calls made during one polling pass.
`Except.error ()` means the call raised.  `sendReply` is keyed by the event id
of the request (each `_send_message` call in a pass carries a distinct id). -/
structure Env where
  strptime : String → Option Int
  now : Int
  searchReply : Except Unit JiraReply
  commentsReply : String → Except Unit JiraReply
  sendReply : Nat → Except Unit SendResult
  getIssue : String → Except Unit RemoteIssue
  transitions : String → Except Unit (List TransitionEntry)
  transitionIssue : String → Nat → Except Unit Unit
  assignIssue : String → String → Except Unit Unit

/-- The bot's mutable attributes: `self.prior_event_ids` (a python set of
ints) and `self.last_new_ticket`.  `self.prior_content` is initialised to `[]`
in `__init__` and never read or written again, so it is omitted. -/
structure BotState where
  prior_event_ids : Finset Nat
  last_new_ticket : String
  deriving DecidableEq

/-- A message actually passed to `self.client.send_message`. -/
structure SentMessage where
  event_id : Nat
  topic : String
  content : String
  deriving DecidableEq, Repr

/-- The observable world: bot state plus the log of `send_message` calls
made so far (`sent` is an observation of the external dispatch collaborator,
appended to whenever `client.send_message` is invoked). -/
structure World where
  bot : BotState
  sent : List SentMessage
  deriving DecidableEq

/-- Result of running a bot method: either it returns (`ok`) or an exception
propagates out of it (`raised`); both carry the world as mutated so far. -/
inductive StepResult where
  | ok (w : World)
  | raised (w : World)
  deriving DecidableEq

/-- The world carried by a `StepResult`, whichever way the method ended. -/
def resWorld : StepResult → World
  | .ok w => w
  | .raised w => w

/-- Function `_parse_jira_timestamp` (lines 305-306) is a single
`datetime.strptime(stamp, '%Y-%m-%dT%H:%M:%S.%f%z')` call: the environment's
`strptime` models it, `none` modelling the `ValueError` raise. -/
def _parse_jira_timestamp (env : Env) (stamp : String) : Option Int :=
  env.strptime stamp

/-- Method `_is_recent_event` (lines 142-145):
`(now - when).total_seconds() < CHANGE_LOOKBACK_SECONDS`.  Returns `none`
when `_parse_jira_timestamp` raises (the exception propagates to the caller).
-/
def _is_recent_event (env : Env) (event_timestamp : String) : Option Bool :=
  match _parse_jira_timestamp env event_timestamp with
  | none => none
  | some when_ => some (decide ((env.now - when_) < CHANGE_LOOKBACK_SECONDS))

/-- Function `_issue_markdown_link` (lines 309-311). -/
def _issue_markdown_link (title key : String) : String :=
  "[" ++ title ++ "](https://issues.apache.org/jira/browse/" ++ key ++ ")"

/-- Method `_make_jira_request` (lines 168-176): a failing request is replaced by the
literal document `{'issues': []}` (which has no `'comments'` key). -/
def _make_jira_request (reply : Except Unit JiraReply) : JiraReply :=
  match reply with
  | .ok r => r
  | .error _ => { issues := some [], comments := none }

/-- Method `_send_message` (lines 124-140): early-return when the event id was
already seen; otherwise build the request, call `client.send_message` (logged
in `World.sent`), and — only if that call returns — add the id to
`prior_event_ids`.  If the call raises, the id is not added and the exception
propagates.  The `pprint` debugging output has no modelled effect. -/
def _send_message (env : Env) (w : World) (event_id : Nat)
    (topic content : String) : StepResult :=
  if event_id ∈ w.bot.prior_event_ids then
    .ok w
  else
    let w1 : World := { w with sent := w.sent ++ [⟨event_id, topic, content⟩] }
    match env.sendReply event_id with
    | .error _ => .raised w1
    | .ok _result =>
        .ok { w1 with
              bot := { w1.bot with
                       prior_event_ids := insert event_id w1.bot.prior_event_ids } }

/-- Method `JiraPython.maybe_set_in_progress` (lines 50-69).  `self.jira.issue`,
`.transitions`, `.transition_issue`, `.assign_issue` are the external jira
library; any of them may raise.  The `[0]` subscript on the filtered
transition list raises `IndexError` when no transition is named
`"Start Progress"`. -/
def maybe_set_in_progress (env : Env) (jira_id : String) : Except Unit Unit :=
  match env.getIssue jira_id with
  | .error _ => .error ()
  | .ok issue =>
    match issue.assignee with
    | none => .ok ()
    | some assignee =>
      if issue.statusName ≠ "Open" then .ok ()
      else
        match env.transitions jira_id with
        | .error _ => .error ()
        | .ok ts =>
          match ts.filter (fun x => x.name = "Start Progress") with
          | [] => .error ()
          | resolve :: _ =>
            match env.transitionIssue jira_id resolve.id with
            | .error _ => .error ()
            | .ok _ => env.assignIssue jira_id assignee

/-- Mapping `field_defaults` (lines 232-235), as the lookup `field_defaults.get`. -/
def field_defaults : String → Option String
  | "resolution" => some "Unresolved"
  | "labels" => some "(no labels)"
  | _ => none

/-- Python truthiness-based defaulting
`to_string or field_defaults.get(field, "(empty)")` (line 247): `None` and
the empty string are falsy. -/
def resolve_to_string (to_string : Option String) (field : String) : String :=
  match to_string with
  | none => (field_defaults field).getD "(empty)"
  | some s => if s = "" then (field_defaults field).getD "(empty)" else s

/-- Test `'pull-request-available' in to_string` (line 249): substring test. -/
def strContains (s sub : String) : Bool := decide (sub.data <:+: s.data)

/-- Lines 254-258: the line rendered for one retained item
(`from_string` is `item.get('fromString')`, `to_string` the resolved
destination value). -/
def render_change_line (item : ChangeItem) : String :=
  match item.fromString with
  | none =>
      "* Changed " ++ item.field ++ " to **" ++
        resolve_to_string item.toString item.field ++ "**"
  | some fs =>
      "* Changed " ++ item.field ++ " from **" ++ fs ++ "** to **" ++
        resolve_to_string item.toString item.field ++ "**"

/-- The loop body of `send_ticket_change_event` over `change['items']`
(lines 237-260): drop ignored fields, resolve the destination value, fire the
`maybe_set_in_progress` side effect on a `labels` change that mentions
`pull-request-available` (its raise propagates), and accumulate the rendered
lines. -/
def change_lines_loop (env : Env) (key : String) :
    List ChangeItem → Except Unit (List String)
  | [] => .ok []
  | item :: rest =>
    if item.field ∈ CHANGE_IGNORED_FIELDS then
      change_lines_loop env key rest
    else
      match (if item.field = "labels" ∧
               strContains (resolve_to_string item.toString item.field)
                 "pull-request-available" then
               maybe_set_in_progress env key
             else .ok ()) with
      | .error _ => .error ()
      | .ok _ =>
        match change_lines_loop env key rest with
        | .error _ => .error ()
        | .ok lines => .ok (render_change_line item :: lines)

/-- The body template of `send_ticket_change_event` (lines 226-230 and
267-270), applied to its four format arguments. -/
def ticket_change_content (author link joined : String) (change_id : Nat) :
    String :=
  author ++ " updated " ++ link ++ ":\n\n" ++ joined ++ "\n\n(event_id: " ++
    toString change_id ++ ")"

/-- Method `send_ticket_change_event` (lines 213-271). -/
def send_ticket_change_event (env : Env) (w : World) (issue : Issue)
    (change : History) : StepResult :=
  let author := change.author
  let title := issue.fields.summary
  let key := issue.key
  let change_id := change.id
  if change_id ∈ w.bot.prior_event_ids then
    .ok w
  else
    let prefixed_title := key ++ ": " ++ title
    let topic := prefixed_title
    match change_lines_loop env key change.items with
    | .error _ => .raised w
    | .ok change_lines =>
      if change_lines.length = 0 then
        .ok { w with
              bot := { w.bot with
                       prior_event_ids := insert change_id w.bot.prior_event_ids } }
      else
        let formatted_content :=
          ticket_change_content author (_issue_markdown_link prefixed_title key)
            (String.intercalate "\n" change_lines) change_id
        _send_message env w change_id topic formatted_content

/-- The body template of `send_new_ticket` (lines 205-210), applied to its
format arguments. -/
def new_ticket_content (author link assignee desc : String) (issue_id : Nat) :
    String :=
  author ++ " created " ++ link ++ ":\n\n* **Assignee**: " ++ assignee ++
    "\n\n" ++ desc ++ " (event_id: " ++ toString issue_id ++ ")"

/-- Method `send_new_ticket` (lines 178-211).  `desc = fields.get('description')` is
`None` when the field is absent or null, and the following
`len(desc) > DESCRIPTION_LIMIT` then raises `TypeError` — modelled by
`.raised w` on `description = none`. -/
def send_new_ticket (env : Env) (w : World) (issue : Issue) : StepResult :=
  let issue_id := issue.id
  if issue_id ∈ w.bot.prior_event_ids then
    .ok w
  else
    let fields := issue.fields
    let author := fields.creator
    let assignee :=
      match fields.assignee with
      | some a => a
      | none => "UNASSIGNED"
    let key := issue.key
    let title := fields.summary
    match fields.description with
    | none => .raised w
    | some desc0 =>
      let desc :=
        if desc0.length > DESCRIPTION_LIMIT then
          desc0.take DESCRIPTION_LIMIT ++ "..."
        else desc0
      let prefixed_title := key ++ ": " ++ title
      let topic := prefixed_title
      let content :=
        new_ticket_content author (_issue_markdown_link prefixed_title key)
          assignee desc issue_id
      _send_message env w issue_id topic content

/-- The body template of `send_comment_event` (lines 290-301), applied to its
format arguments. -/
def comment_content (author action link updated body : String)
    (comment_id : Nat) : String :=
  author ++ " " ++ action ++ " on " ++ link ++ ":\n\nWhen: " ++ updated ++
    "\n\n" ++ body ++ "\n\n(event_id: " ++ toString comment_id ++ ")"

/-- Method `send_comment_event` (lines 273-302). -/
def send_comment_event (env : Env) (w : World) (issue : Issue)
    (comment : CommentE) : StepResult :=
  let author := comment.author
  let title := issue.fields.summary
  let key := issue.key
  let comment_id := comment.id
  if comment_id ∈ w.bot.prior_event_ids then
    .ok w
  else
    let prefixed_title := key ++ ": " ++ title
    let topic := prefixed_title
    let action :=
      if comment.updated ≠ comment.created then "updated comment"
      else "posted new comment"
    let formatted_content :=
      comment_content author action (_issue_markdown_link prefixed_title key)
        comment.updated comment.body comment_id
    _send_message env w comment_id topic formatted_content

/-- The comments loop of `process_latest` (lines 152-155): skip events that
are not recent, a `ValueError` from the timestamp parse propagates. -/
def process_comments (env : Env) (issue : Issue) :
    World → List CommentE → StepResult
  | w, [] => .ok w
  | w, comment :: rest =>
    match _is_recent_event env comment.updated with
    | none => .raised w
    | some false => process_comments env issue w rest
    | some true =>
      match send_comment_event env w issue comment with
      | .ok w2 => process_comments env issue w2 rest
      | .raised w2 => .raised w2

/-- The changelog loop of `process_latest` (lines 157-160). -/
def process_histories (env : Env) (issue : Issue) :
    World → List History → StepResult
  | w, [] => .ok w
  | w, entry :: rest =>
    match _is_recent_event env entry.created with
    | none => .raised w
    | some false => process_histories env issue w rest
    | some true =>
      match send_ticket_change_event env w issue entry with
      | .ok w2 => process_histories env issue w2 rest
      | .raised w2 => .raised w2

/-- Python's string `<` on code-point lists: lexicographic, a strict prefix
is smaller. -/
def pyStrLtL : List Char → List Char → Bool
  | [], [] => false
  | [], _ :: _ => true
  | _ :: _, [] => false
  | a :: as, b :: bs =>
    if a.toNat < b.toNat then true
    else if b.toNat < a.toNat then false
    else pyStrLtL as bs

/-- Python's string `<` (so `issue['key'] > self.last_new_ticket` is
`pyStrLt last_new_ticket key`): lexicographic comparison by code point. -/
def pyStrLt (a b : String) : Bool := pyStrLtL a.data b.data

/-- The per-issue body of `process_latest` (lines 150-166): fetch the issue's
comments (`issue_comments['comments']` raises `KeyError` when the fetch
failed and the fake `{'issues': []}` reply was substituted), run the two
loops, then the new-ticket check: `self.last_new_ticket` is assigned *before*
`send_new_ticket` is called, so it stays advanced even if the send raises. -/
def process_issue (env : Env) (w : World) (issue : Issue) : StepResult :=
  match (_make_jira_request (env.commentsReply issue.key)).comments with
  | none => .raised w
  | some comments =>
    match process_comments env issue w comments with
    | .raised w2 => .raised w2
    | .ok w2 =>
      match process_histories env issue w2 issue.histories with
      | .raised w3 => .raised w3
      | .ok w3 =>
        if issue.histories.length == 0 && pyStrLt w3.bot.last_new_ticket issue.key then
          send_new_ticket env
            { w3 with bot := { w3.bot with last_new_ticket := issue.key } } issue
        else
          .ok w3

/-- The issues loop of `process_latest` (line 150). -/
def process_issues (env : Env) : World → List Issue → StepResult
  | w, [] => .ok w
  | w, issue :: rest =>
    match process_issue env w issue with
    | .ok w2 => process_issues env w2 rest
    | .raised w2 => .raised w2

/-- Method `process_latest` (lines 147-166): one polling pass.  `events['issues']`
raises `KeyError` when the reply lacks the key (never the case for the
substituted fake reply, which is exactly `{'issues': []}`). -/
def process_latest (env : Env) (w : World) : StepResult :=
  match (_make_jira_request env.searchReply).issues with
  | none => .raised w
  | some issues => process_issues env w issues

/-- Maximal leading digit run of `re`'s `[\d]+`. -/
def leadingDigits (cs : List Char) : List Char := cs.takeWhile Char.isDigit

/-- All captures of `re.findall(r'event_id: ([\d]+)', content)` (line 112),
scanning left to right.  Scanning one character at a time is extensionally
the same as `re.findall`'s non-overlapping scan for this pattern: a match is
the literal `"event_id: "` followed by digits, and no later occurrence of the
literal can begin inside an earlier match (the literal has no self-overlap
and contains no digit). -/
def findEventIdRuns : List Char → List (List Char)
  | [] => []
  | c :: cs =>
    let lit := "event_id: ".data
    if lit.isPrefixOf (c :: cs) then
      let run := leadingDigits ((c :: cs).drop lit.length)
      if run.length = 0 then findEventIdRuns cs
      else run :: findEventIdRuns cs
    else findEventIdRuns cs

/-- Conversion `int` on a captured all-digits string (line 115); the guarded
`ValueError` branch is unreachable because the capture is `[\d]+`. -/
def digitsToNat (ds : List Char) : Nat :=
  ds.foldl (fun n c => n * 10 + (c.toNat - 48)) 0

/-- Method `_get_recent_messages` (lines 98-117): seed `prior_event_ids` from the
bodies of the most recent messages the bot itself sent (`messages` is the
content list returned by `client.get_messages`); a body is used only when the
regex finds exactly one `event_id:` marker in it. -/
def _get_recent_messages (messages : List String) (w : World) : World :=
  messages.foldl
    (fun w content =>
      match findEventIdRuns content.data with
      | [run] =>
        { w with
          bot := { w.bot with
                   prior_event_ids :=
                     insert (digitsToNat run) w.bot.prior_event_ids } }
      | _ => w)
    w

/-! ### Spec-side definitions (for the projection refinement claim)

`spec_render_item` and `spec_project` follow the wording of the spec's
change-projection policy, to be compared with the source-translated
`change_lines_loop`. -/

/-- Modelled from the spec's projection policy: resolve `to_value` — if
absent/empty, substitute the per-field default, falling back to `"(empty)"`. -/
def spec_resolve_to (item : ChangeItem) : String :=
  match item.toString with
  | none => (field_defaults item.field).getD "(empty)"
  | some s => if s = "" then (field_defaults item.field).getD "(empty)" else s

/-- Modelled from the spec's projection policy: render
`"* Changed {field} to **{to}**"` when `from_value` is absent, else
`"* Changed {field} from **{from}** to **{to}**"`. -/
def spec_render_item (item : ChangeItem) : String :=
  match item.fromString with
  | none => "* Changed " ++ item.field ++ " to **" ++ spec_resolve_to item ++ "**"
  | some fs =>
      "* Changed " ++ item.field ++ " from **" ++ fs ++ "** to **" ++
        spec_resolve_to item ++ "**"

/-- Modelled from the spec's projection policy: drop each item whose field is
in the ignore-set, render the rest in order. -/
def spec_project (items : List ChangeItem) : List String :=
  (items.filter (fun i => !(CHANGE_IGNORED_FIELDS.contains i.field))).map
    spec_render_item

/-! ### World extension -/

/-- One bot operation extends the world: the dedup store only grows, and the
dispatch log grows only by messages whose event id was *not* already in the
dedup store when the operation started. -/
def WExt (w w' : World) : Prop :=
  w.bot.prior_event_ids ⊆ w'.bot.prior_event_ids ∧
  ∃ new, w'.sent = w.sent ++ new ∧
    ∀ m ∈ new, m.event_id ∉ w.bot.prior_event_ids

/-! ### Concrete fixtures (used by witnesses and counterexamples) -/

/-- An environment in which every external call succeeds: timestamps parse to
epoch `0`, the search returns no issues, per-issue comment fetches return no
comments, sends succeed, and the remote issue is unassigned. -/
def testEnv : Env where
  strptime := fun _ => some 0
  now := 0
  searchReply := .ok ⟨some [], none⟩
  commentsReply := fun _ => .ok ⟨none, some []⟩
  sendReply := fun _ => .ok ⟨true, false⟩
  getIssue := fun _ => .ok ⟨none, "Open"⟩
  transitions := fun _ => .ok []
  transitionIssue := fun _ _ => .ok ()
  assignIssue := fun _ _ => .ok ()

/-- The bot's initial world for project `ARROW`:
`last_new_ticket = 'ARROW-00000'`, nothing seen, nothing sent. -/
def w0 : World := ⟨⟨∅, "ARROW-00000"⟩, []⟩

/-- A world in which event id `7` has already been seen. -/
def wSeen : World := ⟨⟨{7}, "ARROW-00000"⟩, []⟩

/-- Zero-history issue `ARROW-5`. -/
def cIssue5 : Issue := ⟨105, "ARROW-5", ⟨"Bug", "Alice", some "d", none⟩, []⟩

/-- Zero-history issue `ARROW-3`. -/
def cIssue3 : Issue := ⟨103, "ARROW-3", ⟨"Bug3", "Alice", some "d", none⟩, []⟩

/-- Zero-history issue `ARROW-9`. -/
def cIssue9 : Issue := ⟨109, "ARROW-9", ⟨"Bug9", "Alice", some "d", none⟩, []⟩

/-- The message dispatched for `cIssue5`. -/
def cMsg5 : SentMessage :=
  ⟨105, "ARROW-5: Bug",
    new_ticket_content "Alice" (_issue_markdown_link "ARROW-5: Bug" "ARROW-5")
      "UNASSIGNED" "d" 105⟩

/-- The message dispatched for `cIssue9`. -/
def cMsg9 : SentMessage :=
  ⟨109, "ARROW-9: Bug9",
    new_ticket_content "Alice" (_issue_markdown_link "ARROW-9: Bug9" "ARROW-9")
      "UNASSIGNED" "d" 109⟩

/-- World after processing `cIssue5` from `w0`. -/
def cW1 : World := ⟨⟨{105}, "ARROW-5"⟩, [cMsg5]⟩

/-- World after additionally processing `cIssue9`. -/
def cW2 : World := ⟨⟨insert 109 {105}, "ARROW-9"⟩, [cMsg5, cMsg9]⟩

/-- Environment whose dispatch call returns a failure result that is not a
duplicate-of-prior-state (the call returns instead of raising). -/
def cexEnv2 : Env := { testEnv with sendReply := fun _ => .ok ⟨false, false⟩ }

/-- A comment whose `updated` timestamp will not parse. -/
def cCommentBad : CommentE := ⟨51, "Bob", "hi", "garbage", "garbage"⟩

/-- An issue carrying `cCommentBad` in its comment fetch. -/
def cIssueC : Issue := ⟨200, "ARROW-2", ⟨"T", "A", some "d", none⟩, []⟩

/-- Environment whose timestamp parses all raise `ValueError` and whose
search returns `cIssueC`, with `cCommentBad` attached. -/
def cexEnv5 : Env :=
  { testEnv with
    strptime := fun _ => none
    searchReply := .ok ⟨some [cIssueC], none⟩
    commentsReply := fun _ => .ok ⟨none, some [cCommentBad]⟩ }

/-- Environment whose search succeeds with one issue but whose per-issue
comments fetch raises. -/
def cexEnv8 : Env :=
  { testEnv with
    searchReply := .ok ⟨some [cIssueC], none⟩
    commentsReply := fun _ => .error () }

/-- A `labels` change that announces `pull-request-available`. -/
def cChange9 : History :=
  ⟨7, "2019-01-01T00:00:00.000+0000", "Carl",
    [⟨"labels", none, some "pull-request-available"⟩]⟩

/-- The issue carrying `cChange9`. -/
def cIssueK : Issue := ⟨300, "ARROW-2", ⟨"T", "A", some "d", none⟩, [cChange9]⟩

/-- Environment in which the remote issue is assigned and Open but offers no
`"Start Progress"` transition, so `maybe_set_in_progress` raises
(`IndexError` on the `[0]` subscript). -/
def cexEnv9 : Env :=
  { testEnv with
    getIssue := fun _ => .ok ⟨some "bob", "Open"⟩
    transitions := fun _ => .ok [] }

/-- A change all of whose items have ignored fields. -/
def cChangeIgn : History :=
  ⟨8, "2019-01-01T00:00:00.000+0000", "Carl",
    [⟨"timespent", none, some "30"⟩, ⟨"WorklogId", some "1", some "2"⟩]⟩

/-- The items of the spec's end-to-end projection scenario. -/
def cItemsC7 : List ChangeItem :=
  [⟨"status", some "Open", some "In Progress"⟩, ⟨"timespent", none, some "30"⟩]

/-- A zero-history issue whose `description` field is absent/null. -/
def cIssueNoDesc : Issue := ⟨400, "ARROW-7", ⟨"T", "A", none, none⟩, []⟩

/-- Environment in which both the search fetch and the per-issue comments
fetch raise. -/
def cexEnv8b : Env :=
  { testEnv with
    searchReply := .error ()
    commentsReply := fun _ => .error () }

/-- Environment whose clock sits `CHANGE_LOOKBACK_SECONDS - 1` seconds after
the parsed event time `0`. -/
def cEnv6a : Env := { testEnv with now := CHANGE_LOOKBACK_SECONDS - 1 }

/-- Environment whose clock sits `CHANGE_LOOKBACK_SECONDS + 1` seconds after
the parsed event time `0`. -/
def cEnv6b : Env := { testEnv with now := CHANGE_LOOKBACK_SECONDS + 1 }

/-! ## Lemmas -/

theorem WExt_refl (w : World) : WExt w w :=
  ⟨Finset.Subset.refl _, [], by simp, by simp⟩

theorem WExt_trans {w1 w2 w3 : World} (h12 : WExt w1 w2) (h23 : WExt w2 w3) :
    WExt w1 w3 := by
  obtain ⟨s12, n1, e1, f1⟩ := h12
  obtain ⟨s23, n2, e2, f2⟩ := h23
  refine ⟨Finset.Subset.trans s12 s23, n1 ++ n2, ?_, ?_⟩
  · rw [e2, e1, List.append_assoc]
  · intro m hm
    rcases List.mem_append.mp hm with h | h
    · exact f1 m h
    · exact fun hin => f2 m h (s12 hin)

theorem WExt_of_sent_eq {w w' : World}
    (hp : w.bot.prior_event_ids ⊆ w'.bot.prior_event_ids)
    (hs : w'.sent = w.sent) : WExt w w' :=
  ⟨hp, [], by simp [hs], by simp⟩

theorem sendMessage_wext (env : Env) (w : World) (event_id : Nat)
    (t c : String) : WExt w (resWorld (_send_message env w event_id t c)) := by
  unfold _send_message
  by_cases h : event_id ∈ w.bot.prior_event_ids
  · simp only [if_pos h, resWorld]
    exact WExt_refl w
  · simp only [if_neg h]
    cases hr : env.sendReply event_id with
    | error e =>
        simp only [resWorld]
        exact ⟨Finset.Subset.refl _, [⟨event_id, t, c⟩], rfl, by simpa using h⟩
    | ok r =>
        simp only [resWorld]
        refine ⟨?_, [⟨event_id, t, c⟩], rfl, by simpa using h⟩
        intro x hx
        exact Finset.mem_insert_of_mem hx

theorem sendMessage_mark (env : Env) (w : World) (event_id : Nat)
    (t c : String) :
    (resWorld (_send_message env w event_id t c)).bot.last_new_ticket =
      w.bot.last_new_ticket := by
  unfold _send_message
  by_cases h : event_id ∈ w.bot.prior_event_ids
  · simp [if_pos h, resWorld]
  · simp only [if_neg h]
    cases hr : env.sendReply event_id <;> simp [resWorld]

theorem sendNewTicket_wext (env : Env) (w : World) (issue : Issue) :
    WExt w (resWorld (send_new_ticket env w issue)) := by
  unfold send_new_ticket
  by_cases h : issue.id ∈ w.bot.prior_event_ids
  · simp only [if_pos h, resWorld]
    exact WExt_refl w
  · simp only [if_neg h]
    cases hd : issue.fields.description with
    | none => simp only [resWorld]; exact WExt_refl w
    | some d => exact sendMessage_wext env w issue.id _ _

theorem sendNewTicket_mark (env : Env) (w : World) (issue : Issue) :
    (resWorld (send_new_ticket env w issue)).bot.last_new_ticket =
      w.bot.last_new_ticket := by
  unfold send_new_ticket
  by_cases h : issue.id ∈ w.bot.prior_event_ids
  · simp [if_pos h, resWorld]
  · simp only [if_neg h]
    cases hd : issue.fields.description with
    | none => simp [resWorld]
    | some d => exact sendMessage_mark env w issue.id _ _

theorem sendCommentEvent_wext (env : Env) (w : World) (issue : Issue)
    (comment : CommentE) :
    WExt w (resWorld (send_comment_event env w issue comment)) := by
  unfold send_comment_event
  by_cases h : comment.id ∈ w.bot.prior_event_ids
  · simp only [if_pos h, resWorld]
    exact WExt_refl w
  · simp only [if_neg h]
    exact sendMessage_wext env w comment.id _ _

theorem sendTicketChangeEvent_wext (env : Env) (w : World) (issue : Issue)
    (change : History) :
    WExt w (resWorld (send_ticket_change_event env w issue change)) := by
  unfold send_ticket_change_event
  by_cases h : change.id ∈ w.bot.prior_event_ids
  · simp only [if_pos h, resWorld]
    exact WExt_refl w
  · simp only [if_neg h]
    cases hl : change_lines_loop env issue.key change.items with
    | error e => simp only [resWorld]; exact WExt_refl w
    | ok lines =>
        by_cases hz : lines.length = 0
        · simp only [if_pos hz, resWorld]
          exact WExt_of_sent_eq (Finset.subset_insert _ _) rfl
        · simp only [if_neg hz]
          exact sendMessage_wext env w change.id _ _

theorem sendTicketChangeEvent_mark (env : Env) (w : World) (issue : Issue)
    (change : History) :
    (resWorld (send_ticket_change_event env w issue change)).bot.last_new_ticket =
      w.bot.last_new_ticket := by
  unfold send_ticket_change_event
  by_cases h : change.id ∈ w.bot.prior_event_ids
  · simp [if_pos h, resWorld]
  · simp only [if_neg h]
    cases hl : change_lines_loop env issue.key change.items with
    | error e => simp [resWorld]
    | ok lines =>
        by_cases hz : lines.length = 0
        · simp only [if_pos hz, resWorld]
        · simp only [if_neg hz]
          exact sendMessage_mark env w change.id _ _

theorem processComments_wext (env : Env) (issue : Issue) :
    ∀ (comments : List CommentE) (w : World),
      WExt w (resWorld (process_comments env issue w comments)) := by
  intro comments
  induction comments with
  | nil => intro w; exact WExt_refl w
  | cons c rest ih =>
      intro w
      unfold process_comments
      cases hr : _is_recent_event env c.updated with
      | none => exact WExt_refl w
      | some b =>
          cases b with
          | false => exact ih w
          | true =>
              cases hs : send_comment_event env w issue c with
              | ok w2 =>
                  have h1 : WExt w w2 := by
                    have := sendCommentEvent_wext env w issue c
                    rwa [hs] at this
                  exact WExt_trans h1 (ih w2)
              | raised w2 =>
                  have := sendCommentEvent_wext env w issue c
                  rwa [hs] at this

theorem processHistories_wext (env : Env) (issue : Issue) :
    ∀ (hs : List History) (w : World),
      WExt w (resWorld (process_histories env issue w hs)) := by
  intro hs
  induction hs with
  | nil => intro w; exact WExt_refl w
  | cons entry rest ih =>
      intro w
      unfold process_histories
      cases hr : _is_recent_event env entry.created with
      | none => exact WExt_refl w
      | some b =>
          cases b with
          | false => exact ih w
          | true =>
              cases hsend : send_ticket_change_event env w issue entry with
              | ok w2 =>
                  have h1 : WExt w w2 := by
                    have := sendTicketChangeEvent_wext env w issue entry
                    rwa [hsend] at this
                  exact WExt_trans h1 (ih w2)
              | raised w2 =>
                  have := sendTicketChangeEvent_wext env w issue entry
                  rwa [hsend] at this

theorem processIssue_wext (env : Env) (w : World) (issue : Issue) :
    WExt w (resWorld (process_issue env w issue)) := by
  unfold process_issue
  split
  · exact WExt_refl w
  · rename_i comments hc
    split
    · rename_i w2 hpc
      have := processComments_wext env issue comments w
      rwa [hpc] at this
    · rename_i w2 hpc
      have h1 : WExt w w2 := by
        have := processComments_wext env issue comments w
        rwa [hpc] at this
      split
      · rename_i w3 hph
        have h2 : WExt w2 w3 := by
          have := processHistories_wext env issue issue.histories w2
          rwa [hph] at this
        exact WExt_trans h1 h2
      · rename_i w3 hph
        have h2 : WExt w2 w3 := by
          have := processHistories_wext env issue issue.histories w2
          rwa [hph] at this
        have h12 := WExt_trans h1 h2
        split
        · refine WExt_trans h12 (WExt_trans ?_
            (sendNewTicket_wext env
              ⟨⟨w3.bot.prior_event_ids, issue.key⟩, w3.sent⟩ issue))
          exact WExt_of_sent_eq (Finset.Subset.refl _) rfl
        · exact h12

theorem processIssues_wext (env : Env) :
    ∀ (issues : List Issue) (w : World),
      WExt w (resWorld (process_issues env w issues)) := by
  intro issues
  induction issues with
  | nil => intro w; exact WExt_refl w
  | cons issue rest ih =>
      intro w
      unfold process_issues
      cases hp : process_issue env w issue with
      | ok w2 =>
          have h1 : WExt w w2 := by
            have := processIssue_wext env w issue
            rwa [hp] at this
          exact WExt_trans h1 (ih w2)
      | raised w2 =>
          have := processIssue_wext env w issue
          rwa [hp] at this

theorem processLatest_wext (env : Env) (w : World) :
    WExt w (resWorld (process_latest env w)) := by
  unfold process_latest
  split
  · exact WExt_refl w
  · rename_i issues hi
    exact processIssues_wext env issues w

theorem getRecentMessages_subset :
    ∀ (messages : List String) (w : World),
      w.bot.prior_event_ids ⊆ (_get_recent_messages messages w).bot.prior_event_ids := by
  intro messages
  induction messages with
  | nil => intro w; exact Finset.Subset.refl _
  | cons msg rest ih =>
      intro w
      unfold _get_recent_messages
      simp only [List.foldl_cons]
      cases hf : findEventIdRuns msg.data with
      | nil => exact ih w
      | cons r rs =>
          cases rs with
          | nil =>
              refine Finset.Subset.trans ?_ (ih _)
              exact Finset.subset_insert _ _
          | cons r2 rs2 => exact ih w

theorem changeLinesLoop_all_ignored (env : Env) (key : String) :
    ∀ items : List ChangeItem,
      (∀ item ∈ items, item.field ∈ CHANGE_IGNORED_FIELDS) →
      change_lines_loop env key items = .ok [] := by
  intro items
  induction items with
  | nil => intro _; rfl
  | cons item rest ih =>
      intro h
      unfold change_lines_loop
      rw [if_pos (h item (List.mem_cons_self item rest))]
      exact ih fun i hi => h i (List.mem_cons_of_mem item hi)

theorem spec_resolve_to_eq (item : ChangeItem) :
    spec_resolve_to item = resolve_to_string item.toString item.field := rfl

theorem spec_project_cons_mem (item : ChangeItem) (rest : List ChangeItem)
    (hig : item.field ∈ CHANGE_IGNORED_FIELDS) :
    spec_project (item :: rest) = spec_project rest := by
  simp [spec_project, List.filter_cons, hig]

theorem spec_project_cons_not_mem (item : ChangeItem) (rest : List ChangeItem)
    (hig : item.field ∉ CHANGE_IGNORED_FIELDS) :
    spec_project (item :: rest) = spec_render_item item :: spec_project rest := by
  simp [spec_project, List.filter_cons, hig]

theorem changeLinesLoop_spec (env : Env) (key : String) :
    ∀ (items : List ChangeItem) (lines : List String),
      change_lines_loop env key items = .ok lines →
      lines = spec_project items := by
  intro items
  induction items with
  | nil =>
      intro lines h
      cases h
      rfl
  | cons item rest ih =>
      intro lines h
      unfold change_lines_loop at h
      by_cases hig : item.field ∈ CHANGE_IGNORED_FIELDS
      · rw [if_pos hig] at h
        rw [spec_project_cons_mem item rest hig]
        exact ih lines h
      · rw [if_neg hig] at h
        rw [spec_project_cons_not_mem item rest hig]
        by_cases hlab : item.field = "labels" ∧
            strContains (resolve_to_string item.toString item.field)
              "pull-request-available" = true
        · rw [if_pos hlab] at h
          cases hmsp : maybe_set_in_progress env key with
          | error e => rw [hmsp] at h; cases h
          | ok u =>
              rw [hmsp] at h
              cases hrest : change_lines_loop env key rest with
              | error e => rw [hrest] at h; cases h
              | ok ls =>
                  rw [hrest] at h
                  have h2 : render_change_line item :: ls = lines :=
                    Except.ok.inj h
                  rw [← h2, ← ih ls hrest]
                  cases hf : item.fromString <;>
                    simp [render_change_line, spec_render_item,
                      spec_resolve_to_eq, hf]
        · rw [if_neg hlab] at h
          cases hrest : change_lines_loop env key rest with
          | error e => rw [hrest] at h; cases h
          | ok ls =>
              rw [hrest] at h
              have h2 : render_change_line item :: ls = lines :=
                Except.ok.inj h
              rw [← h2, ← ih ls hrest]
              cases hf : item.fromString <;>
                simp [render_change_line, spec_render_item,
                  spec_resolve_to_eq, hf]

theorem processIssue_zero_history (env : Env) (w : World) (issue : Issue)
    (r : JiraReply) (hh : issue.histories = [])
    (hcr : env.commentsReply issue.key = .ok r)
    (hrc : r.comments = some []) :
    process_issue env w issue =
      if pyStrLt w.bot.last_new_ticket issue.key then
        send_new_ticket env
          { w with bot := { w.bot with last_new_ticket := issue.key } } issue
      else .ok w := by
  unfold process_issue
  rw [hcr]
  unfold _make_jira_request
  rw [hrc]
  simp only [process_comments]
  rw [hh]
  simp only [process_histories, List.length_nil]
  cases hlt : pyStrLt w.bot.last_new_ticket issue.key <;> simp [hlt]

/-! ## Claims -/

/-- C1: the dedup store is monotone.  Every bot operation — startup seeding
(`_get_recent_messages`), sending (`_send_message`, `send_new_ticket`,
`send_ticket_change_event`, `send_comment_event`), and a whole polling pass
(`process_latest`) — only grows `prior_event_ids` (never removes an identity),
and only ever dispatches messages whose event id was not in the store at the
start of the operation (the `WExt` conclusions); moreover an event id already
in the store makes `_send_message` a strict no-op, so a seen event is never
dispatched again. -/
theorem C1_dedup_store_monotone (env : Env) (w : World) :
    (∀ messages, w.bot.prior_event_ids ⊆
        (_get_recent_messages messages w).bot.prior_event_ids) ∧
    (∀ event_id topic content,
        WExt w (resWorld (_send_message env w event_id topic content))) ∧
    (∀ issue, WExt w (resWorld (send_new_ticket env w issue))) ∧
    (∀ issue change,
        WExt w (resWorld (send_ticket_change_event env w issue change))) ∧
    (∀ issue comment,
        WExt w (resWorld (send_comment_event env w issue comment))) ∧
    WExt w (resWorld (process_latest env w)) ∧
    (∀ event_id topic content, event_id ∈ w.bot.prior_event_ids →
        _send_message env w event_id topic content = .ok w) := by
  refine ⟨fun messages => getRecentMessages_subset messages w,
    fun event_id topic content => sendMessage_wext env w event_id topic content,
    fun issue => sendNewTicket_wext env w issue,
    fun issue change => sendTicketChangeEvent_wext env w issue change,
    fun issue comment => sendCommentEvent_wext env w issue comment,
    processLatest_wext env w, ?_⟩
  intro event_id topic content h
  unfold _send_message
  simp only [if_pos h]

/-- Witness for C1 at a concrete environment and a world in which event id 7
has already been seen. -/
theorem C1_dedup_store_monotone_witness :
    wSeen.bot.prior_event_ids ⊆
        (resWorld (process_latest testEnv wSeen)).bot.prior_event_ids ∧
    _send_message testEnv wSeen 7 "t" "c" = .ok wSeen :=
  ⟨(C1_dedup_store_monotone testEnv wSeen).2.2.2.2.2.1.1,
   (C1_dedup_store_monotone testEnv wSeen).2.2.2.2.2.2 7 "t" "c" (by decide)⟩

/-- C2, counterexample: the dispatch call returns a failure result whose
cause is not "duplicate of prior state" (`success := false`,
`duplicateOfPriorState := false`), and the event id is nevertheless marked
seen — refuting "on dispatch failure the id is not marked seen (except when
the cause is a duplicate of prior state)". -/
theorem C2_counterexample_failed_return_marked :
    cexEnv2.sendReply 7 = Except.ok ⟨false, false⟩ ∧
    _send_message cexEnv2 w0 7 "t" "c" =
      .ok ⟨⟨{7}, "ARROW-00000"⟩, [⟨7, "t", "c"⟩]⟩ :=
  ⟨rfl, by decide⟩

/-- C2, amended: for a not-yet-seen event id, `_send_message` marks the id
seen exactly when the dispatch call *returns* — whatever success or failure
the returned value reports — and leaves it unmarked only when the dispatch
call raises, in which case the exception propagates. -/
theorem C2_amended_mark_on_return (env : Env) (w : World) (event_id : Nat)
    (topic content : String) (h : event_id ∉ w.bot.prior_event_ids) :
    (env.sendReply event_id = .error () →
      _send_message env w event_id topic content =
        .raised ⟨w.bot, w.sent ++ [⟨event_id, topic, content⟩]⟩) ∧
    (∀ r, env.sendReply event_id = .ok r →
      _send_message env w event_id topic content =
        .ok ⟨⟨insert event_id w.bot.prior_event_ids, w.bot.last_new_ticket⟩,
             w.sent ++ [⟨event_id, topic, content⟩]⟩) := by
  unfold _send_message
  simp only [if_neg h]
  constructor
  · intro he
    rw [he]
  · intro r hr
    rw [hr]

/-- Witness for C2's amended theorem: a returned failure result still marks
the id seen. -/
theorem C2_amended_mark_on_return_witness :
    _send_message cexEnv2 w0 7 "t2" "c2" =
      .ok ⟨⟨insert 7 w0.bot.prior_event_ids, w0.bot.last_new_ticket⟩,
           w0.sent ++ [⟨7, "t2", "c2"⟩]⟩ :=
  (C2_amended_mark_on_return cexEnv2 w0 7 "t2" "c2" (by decide)).2
    ⟨false, false⟩ rfl

/-- C3: the high-water mark `last_new_ticket` only advances under the
lexicographic ordering.  For a zero-history issue whose comments fetch
returns no comments: if the issue key is strictly greater than the mark the
pass sets the mark to that key whatever the subsequent send does (including
raising), and otherwise the pass leaves the world completely unchanged — no
`NewIssue` event, nothing sent, nothing marked.  On the concrete
zero-history key sequence `ARROW-5`, `ARROW-3`, `ARROW-9` from mark
`ARROW-00000`, the mark takes the values `ARROW-5`, `ARROW-5` (unchanged,
`ARROW-3` is a strict no-op), `ARROW-9`, and only ids 105 and 109 are ever
dispatched. -/
theorem C3_high_water_mark :
    (∀ (env : Env) (w : World) (issue : Issue) (r : JiraReply),
      issue.histories = [] →
      env.commentsReply issue.key = .ok r →
      r.comments = some [] →
      (pyStrLt w.bot.last_new_ticket issue.key = true →
        (resWorld (process_issue env w issue)).bot.last_new_ticket = issue.key) ∧
      (pyStrLt w.bot.last_new_ticket issue.key = false →
        process_issue env w issue = .ok w)) ∧
    (process_issue testEnv w0 cIssue5 = .ok cW1 ∧
     cW1.bot.last_new_ticket = "ARROW-5" ∧
     process_issue testEnv cW1 cIssue3 = .ok cW1 ∧
     process_issue testEnv cW1 cIssue9 = .ok cW2 ∧
     cW2.bot.last_new_ticket = "ARROW-9" ∧
     cW2.sent.map SentMessage.event_id = [105, 109]) := by
  constructor
  · intro env w issue r hh hcr hrc
    rw [processIssue_zero_history env w issue r hh hcr hrc]
    constructor
    · intro hlt
      rw [if_pos hlt]
      rw [sendNewTicket_mark]
    · intro hlt
      rw [if_neg (by simp [hlt])]
  · refine ⟨by decide, by decide, by decide, by decide, by decide, by decide⟩

/-- Witness for C3's general part at the concrete `ARROW` fixtures. -/
theorem C3_high_water_mark_witness :
    (resWorld (process_issue testEnv w0 cIssue5)).bot.last_new_ticket =
      cIssue5.key ∧
    process_issue testEnv cW1 cIssue3 = .ok cW1 :=
  ⟨(C3_high_water_mark.1 testEnv w0 cIssue5 ⟨none, some []⟩ rfl rfl rfl).1
      (by decide),
   (C3_high_water_mark.1 testEnv cW1 cIssue3 ⟨none, some []⟩ rfl rfl rfl).2
      (by decide)⟩

/-- C4: a `FieldChange` event all of whose items carry ignored fields yields
zero retained lines: `send_ticket_change_event` returns without raising,
dispatches nothing (the send log is unchanged), and the change id ends up in
the dedup store, so the same empty change is skipped on every later pass. -/
theorem C4_all_ignored_marked_seen (env : Env) (w : World) (issue : Issue)
    (change : History)
    (h : ∀ item ∈ change.items, item.field ∈ CHANGE_IGNORED_FIELDS) :
    ∃ w', send_ticket_change_event env w issue change = .ok w' ∧
      w'.sent = w.sent ∧
      change.id ∈ w'.bot.prior_event_ids ∧
      w'.bot.last_new_ticket = w.bot.last_new_ticket := by
  by_cases hs : change.id ∈ w.bot.prior_event_ids
  · refine ⟨w, ?_, rfl, hs, rfl⟩
    unfold send_ticket_change_event
    simp only [if_pos hs]
  · refine ⟨{ w with bot := { w.bot with
        prior_event_ids := insert change.id w.bot.prior_event_ids } },
      ?_, rfl, Finset.mem_insert_self _ _, rfl⟩
    unfold send_ticket_change_event
    simp only [if_neg hs]
    rw [changeLinesLoop_all_ignored env issue.key change.items h]
    rfl

/-- Witness for C4 on a change whose two items are `timespent` and
`WorklogId`, both in the ignore-set. -/
theorem C4_all_ignored_marked_seen_witness :
    ∃ w', send_ticket_change_event testEnv w0 cIssueC cChangeIgn = .ok w' ∧
      w'.sent = w0.sent ∧
      cChangeIgn.id ∈ w'.bot.prior_event_ids ∧
      w'.bot.last_new_ticket = w0.bot.last_new_ticket :=
  C4_all_ignored_marked_seen testEnv w0 cIssueC cChangeIgn (by decide)

/-- C5, counterexample: with a comment whose timestamp does not parse, the
recency check raises (`none`) instead of treating the event as "not recent",
and the polling pass crashes (`process_latest` ends in `raised`) — refuting
"the event is skipped … and processing of the polling pass does not crash".
(The event is indeed not marked seen: the world is unchanged.) -/
theorem C5_counterexample_malformed_timestamp_crash :
    _is_recent_event cexEnv5 "garbage" = none ∧
    process_latest cexEnv5 w0 = .raised w0 :=
  ⟨rfl, rfl⟩

/-- C5, amended: an event with a malformed timestamp makes the recency check
raise `ValueError`, which aborts the remainder of the polling pass at that
point (world unchanged from there on: the event is *not* marked seen and
nothing further is dispatched); the raise is caught only by the top-level
loop outside the pass, so the process survives and re-evaluates the event on
the next pass. -/
theorem C5_amended_malformed_timestamp_aborts (env : Env) (issue : Issue)
    (w : World) (comment : CommentE) (rest : List CommentE) (entry : History)
    (hrest : List History) (hc : env.strptime comment.updated = none)
    (he : env.strptime entry.created = none) :
    _is_recent_event env comment.updated = none ∧
    process_comments env issue w (comment :: rest) = .raised w ∧
    process_histories env issue w (entry :: hrest) = .raised w := by
  refine ⟨?_, ?_, ?_⟩
  · unfold _is_recent_event _parse_jira_timestamp
    rw [hc]
  · unfold process_comments _is_recent_event _parse_jira_timestamp
    rw [hc]
  · unfold process_histories _is_recent_event _parse_jira_timestamp
    rw [he]

/-- Witness for C5's amended theorem at the concrete malformed fixtures. -/
theorem C5_amended_malformed_timestamp_aborts_witness :
    _is_recent_event cexEnv5 cCommentBad.updated = none ∧
    process_comments cexEnv5 cIssueC w0 [cCommentBad] = .raised w0 ∧
    process_histories cexEnv5 cIssueC w0 [cChange9] = .raised w0 :=
  C5_amended_malformed_timestamp_aborts cexEnv5 cIssueC w0 cCommentBad []
    cChange9 [] rfl rfl

/-- C6: for a well-formed timestamp (one the parser accepts), the recency
check returns true iff the full elapsed duration `now - event_timestamp` is
strictly below `CHANGE_LOOKBACK_SECONDS` — total elapsed seconds, with no
truncation of whole days — and in particular it returns true at elapsed
`CHANGE_LOOKBACK_SECONDS - 1` and false at `CHANGE_LOOKBACK_SECONDS + 1`. -/
theorem C6_is_recent_total_elapsed (env : Env) (stamp : String) (when_ : Int)
    (h : env.strptime stamp = some when_) :
    (_is_recent_event env stamp = some true ↔
      env.now - when_ < CHANGE_LOOKBACK_SECONDS) ∧
    (env.now - when_ = CHANGE_LOOKBACK_SECONDS - 1 →
      _is_recent_event env stamp = some true) ∧
    (env.now - when_ = CHANGE_LOOKBACK_SECONDS + 1 →
      _is_recent_event env stamp = some false) := by
  unfold _is_recent_event _parse_jira_timestamp
  rw [h]
  refine ⟨?_, ?_, ?_⟩
  · simp
  · intro he
    show some (decide (env.now - when_ < CHANGE_LOOKBACK_SECONDS)) = some true
    rw [he]
    decide
  · intro he
    show some (decide (env.now - when_ < CHANGE_LOOKBACK_SECONDS)) = some false
    rw [he]
    decide

/-- Witness for C6 one second inside and one second outside the window. -/
theorem C6_is_recent_total_elapsed_witness :
    _is_recent_event cEnv6a "2019-01-01T00:00:00.000+0000" = some true ∧
    _is_recent_event cEnv6b "2019-01-01T00:00:00.000+0000" = some false :=
  ⟨(C6_is_recent_total_elapsed cEnv6a "2019-01-01T00:00:00.000+0000" 0
      rfl).2.1 (by decide),
   (C6_is_recent_total_elapsed cEnv6b "2019-01-01T00:00:00.000+0000" 0
      rfl).2.2 (by decide)⟩

/-- C7: the change projection drops exactly the items whose field is in the
ignore-set and renders each retained item with the per-field default
substituted for an absent/empty `toString` (falling back to `"(empty)"`) in
the `"* Changed {field} [from **{from}**] to **{to}**"` formats — whenever
the loop completes, its lines equal the spec-side `spec_project` — and on
the spec's example items (`status` Open→In Progress, `timespent` null→30,
with `timespent` ignored) it renders exactly the one line
`"* Changed status from **Open** to **In Progress**"`. -/
theorem C7_change_projection :
    (∀ (env : Env) (key : String) (items : List ChangeItem)
        (lines : List String),
      change_lines_loop env key items = .ok lines →
      lines = spec_project items) ∧
    change_lines_loop testEnv "ARROW-2" cItemsC7 =
      .ok ["* Changed status from **Open** to **In Progress**"] :=
  ⟨fun env key items lines h => changeLinesLoop_spec env key items lines h,
   rfl⟩

/-- Witness for C7's general part at the spec's example items. -/
theorem C7_change_projection_witness :
    ["* Changed status from **Open** to **In Progress**"] =
      spec_project cItemsC7 :=
  C7_change_projection.1 testEnv "ARROW-2" cItemsC7
    ["* Changed status from **Open** to **In Progress**"] rfl

/-- C8, counterexample: `_make_jira_request` does substitute the literal
`{'issues': []}` on any failure and never propagates the error, but that
substituted reply has no `'comments'` key — so when the *per-issue comments*
fetch fails, `issue_comments['comments']` raises `KeyError` and the polling
pass aborts, refuting "a fetch failure never aborts a polling pass". -/
theorem C8_counterexample_comments_fetch_aborts :
    _make_jira_request (Except.error ()) =
      ({ issues := some [], comments := none } : JiraReply) ∧
    process_latest cexEnv8 w0 = .raised w0 :=
  ⟨rfl, rfl⟩

/-- C8, amended: the fetch helper itself never propagates an error (it
substitutes `{'issues': []}`); a failure of the *top-level search* fetch
therefore makes the pass an empty no-op, but a failure of the *per-issue
comments* fetch yields a reply lacking the `'comments'` key and the pass
aborts with a `KeyError` at that issue (world unchanged from that point). -/
theorem C8_amended_fetch_failure (env : Env) (w : World) (issue : Issue)
    (hs : env.searchReply = .error ())
    (hc : env.commentsReply issue.key = .error ()) :
    _make_jira_request env.searchReply =
      ({ issues := some [], comments := none } : JiraReply) ∧
    process_latest env w = .ok w ∧
    process_issue env w issue = .raised w := by
  refine ⟨?_, ?_, ?_⟩
  · rw [hs]
    rfl
  · unfold process_latest
    rw [hs]
    rfl
  · unfold process_issue
    rw [hc]
    rfl

/-- Witness for C8's amended theorem with both fetches failing. -/
theorem C8_amended_fetch_failure_witness :
    _make_jira_request cexEnv8b.searchReply =
      ({ issues := some [], comments := none } : JiraReply) ∧
    process_latest cexEnv8b w0 = .ok w0 ∧
    process_issue cexEnv8b w0 cIssueC = .raised w0 :=
  C8_amended_fetch_failure cexEnv8b w0 cIssueC rfl rfl

/-- C9, counterexample: a `labels` change announcing `pull-request-available`
on an issue whose remote state is assigned and Open but offers no
`"Start Progress"` transition makes `maybe_set_in_progress` raise
(`IndexError` on `[0]`), and the raise propagates out of
`send_ticket_change_event`: the change message is never rendered, nothing is
dispatched, and the id is not marked seen — refuting "for every outcome of
the side-effecting call, including failure, the change lines are still
rendered and the message is still dispatched". -/
theorem C9_counterexample_side_effect_blocks :
    maybe_set_in_progress cexEnv9 "ARROW-2" = .error () ∧
    send_ticket_change_event cexEnv9 w0 cIssueK cChange9 = .raised w0 :=
  ⟨rfl, rfl⟩

/-- C9, amended: when a retained item is a `labels` change whose resolved
value contains `pull-request-available` and the `maybe_set_in_progress`
side-effecting call raises, the exception propagates out of
`send_ticket_change_event` — the message for the change is neither rendered
nor dispatched, and the event id is not marked seen (the world is returned
unchanged in `raised`). -/
theorem C9_amended_side_effect_failure_propagates (env : Env) (w : World)
    (issue : Issue) (change : History) (item : ChangeItem)
    (rest : List ChangeItem) (hitems : change.items = item :: rest)
    (hni : item.field ∉ CHANGE_IGNORED_FIELDS) (hlab : item.field = "labels")
    (hpr : strContains (resolve_to_string item.toString item.field)
        "pull-request-available" = true)
    (hfail : maybe_set_in_progress env issue.key = .error ())
    (hseen : change.id ∉ w.bot.prior_event_ids) :
    send_ticket_change_event env w issue change = .raised w := by
  have hloop : change_lines_loop env issue.key (item :: rest) = .error () := by
    unfold change_lines_loop
    rw [if_neg hni, if_pos ⟨hlab, hpr⟩, hfail]
  unfold send_ticket_change_event
  simp only [if_neg hseen]
  rw [hitems, hloop]

/-- Witness for C9's amended theorem at the concrete fixtures. -/
theorem C9_amended_side_effect_failure_propagates_witness :
    send_ticket_change_event cexEnv9 w0 cIssueK cChange9 = .raised w0 :=
  C9_amended_side_effect_failure_propagates cexEnv9 w0 cIssueK cChange9
    ⟨"labels", none, some "pull-request-available"⟩ [] rfl (by decide) rfl
    (by decide) rfl (by decide)

/-- C10: a raw issue whose `fields` lack a `description` value (absent or
null) makes `send_new_ticket` raise — `len(None)` in the
description-truncation step — before any message is dispatched and before
the event id is marked seen: the world comes back unchanged in `raised`, so
the issue never yields a delivered `NewIssue` message in that pass. -/
theorem C10_missing_description_raises (env : Env) (w : World) (issue : Issue)
    (hd : issue.fields.description = none)
    (hs : issue.id ∉ w.bot.prior_event_ids) :
    send_new_ticket env w issue = .raised w := by
  unfold send_new_ticket
  simp only [if_neg hs]
  rw [hd]

/-- Witness for C10 on a concrete issue without a description. -/
theorem C10_missing_description_raises_witness :
    send_new_ticket testEnv w0 cIssueNoDesc = .raised w0 :=
  C10_missing_description_raises testEnv w0 cIssueNoDesc rfl (by decide)

end JiraZulipBridge
